import Mathlib

/-!
Verification of the TAMV calibration engine (`TAMV_GUI.py`, class
`CalibrateNozzles`) against its natural-language specification.

The Python source is shallowly embedded: machine and pixel coordinates are
rationals, `np.around(x, n)` is round-half-to-even at `n` decimal places,
the 6×2 transformation matrix is a structure of six rational rows, and the
control loops of `calibrateTool`, `analyzeFrame` and `run` are modelled as
explicit step functions on state records, driven by environment streams
(one detection / frame / flag value per loop iteration).  Definitions come
first, theorems after.
-/

namespace TAMV

/-- Round-half-to-even of a rational to an integer: the embedding of
numpy's rounding rule used by `np.around`. -/
def roundHalfEven (q : ℚ) : ℤ :=
  let f : ℤ := ⌊q⌋
  let frac := q - (f : ℚ)
  if frac < 1/2 then f
  else if 1/2 < frac then f + 1
  else if f % 2 = 0 then f else f + 1

/-- `np.around(q, 3)`: round-half-to-even at the third decimal place. -/
def around3 (q : ℚ) : ℚ := (roundHalfEven (q * 1000) : ℚ) / 1000

/-- `np.around(q, 4)`, used for the millimeters-per-pixel value. -/
def around4 (q : ℚ) : ℚ := (roundHalfEven (q * 10000) : ℚ) / 10000

/-- `np.around(q)` at zero decimal places, used for detected keypoint
centers and radii. -/
def around0 (q : ℚ) : ℚ := (roundHalfEven q : ℚ)

/-- `CalibrateNozzles.normalize_coords` (source lines 1693–1695): map
absolute pixel coordinates to the `(-0.5, 0.5)` range using the
configured frame width and height (globals `camera_width`,
`camera_height` in the source). -/
def normalize_coords (w h : ℚ) (coords : ℚ × ℚ) : ℚ × ℚ :=
  (coords.1 / w - 1/2, coords.2 / h - 1/2)

/-- The 6×2 transformation matrix returned by `least_square_mapping`
(`self.transform_matrix` in the source), one row per feature
`[cx², cy², cx·cy, cx, cy, 1]`. -/
structure Transform where
  r0 : ℚ × ℚ
  r1 : ℚ × ℚ
  r2 : ℚ × ℚ
  r3 : ℚ × ℚ
  r4 : ℚ × ℚ
  r5 : ℚ × ℚ
  deriving DecidableEq, Repr

/-- A 6-component feature vector (`self.v` in the source). -/
structure Feat6 where
  a : ℚ
  b : ℚ
  c : ℚ
  d : ℚ
  e : ℚ
  f : ℚ
  deriving DecidableEq, Repr

/-- `transform_matrix.T @ v`: the transpose of the 6×2 matrix applied to a
6-vector, giving a 2-vector. -/
def applyTT (T : Transform) (v : Feat6) : ℚ × ℚ :=
  (v.a * T.r0.1 + v.b * T.r1.1 + v.c * T.r2.1 + v.d * T.r3.1 + v.e * T.r4.1 + v.f * T.r5.1,
   v.a * T.r0.2 + v.b * T.r1.2 + v.c * T.r2.2 + v.d * T.r3.2 + v.e * T.r4.2 + v.f * T.r5.2)

/-- The feature vector `[cx², cy², cx·cy, cx, cy, 0]` built in the
centering state (source line `self.v = [cx**2, cy**2, cx*cy, cx, cy, 0]`). -/
def featureVecOffset (cx cy : ℚ) : Feat6 :=
  ⟨cx^2, cy^2, cx*cy, cx, cy, 0⟩

/-- The feature vector `[0, 0, 0, 0, 0, 1]` used to derive the camera
center in machine space (source line 1585). -/
def featureVecCenter : Feat6 := ⟨0, 0, 0, 0, 0, 1⟩

/-- The corrective offsets exactly as the source computes them:
`self.offsets = -1*(0.55*self.transform_matrix.T @ self.v)` followed by
`np.around(·, 3)` on each component (lines 1611–1615). -/
def codeOffsets (T : Transform) (cx cy : ℚ) : ℚ × ℚ :=
  (around3 (-1 * (55/100 * (applyTT T (featureVecOffset cx cy)).1)),
   around3 (-1 * (55/100 * (applyTT T (featureVecOffset cx cy)).2)))

/-- The offsets as the specification words them:
`-0.55 · transform.T · [cx², cy², cx·cy, cx, cy, 0]`, each component
rounded to 3 decimal places. -/
def specOffsets (T : Transform) (cx cy : ℚ) : ℚ × ℚ :=
  (around3 (-(55/100) * (applyTT T (featureVecOffset cx cy)).1),
   around3 (-(55/100) * (applyTT T (featureVecOffset cx cy)).2))

/-! ### Detector presets and `createDetector` (claim C9) -/

/-- The `self.detect_*` attributes set by `detectParamsStandard` /
`detectParamsLoose`: thresholds, area bounds, circularity bounds,
convexity bounds and inertia ratio of the active preset. -/
structure PresetState where
  th1 : ℚ
  th2 : ℚ
  thstep : ℚ
  minArea : ℚ
  maxArea : ℚ
  minCircularity : ℚ
  maxCircularity : ℚ
  minConvexity : ℚ
  maxConvexity : ℚ
  minInertiaRatio : ℚ
  deriving DecidableEq, Repr

/-- `CalibrateNozzles.detectParamsStandard` (source lines 990–1010). -/
def detectParamsStandard : PresetState :=
  ⟨1, 50, 1, 400, 900, 8/10, 1, 3/10, 1, 3/10⟩

/-- `CalibrateNozzles.detectParamsLoose` (source lines 1012–1032). -/
def detectParamsLoose : PresetState :=
  ⟨1, 50, 1, 600, 15000, 6/10, 1, 1/10, 1, 3/10⟩

/-- The numeric fields of the `cv2.SimpleBlobDetector_Params` object built
by `createDetector`. -/
structure DetectorParams where
  minThreshold : ℚ
  maxThreshold : ℚ
  thresholdStep : ℚ
  minArea : ℚ
  maxArea : ℚ
  minCircularity : ℚ
  maxCircularity : ℚ
  minConvexity : ℚ
  maxConvexity : ℚ
  minInertiaRatio : ℚ
  deriving DecidableEq, Repr

/-- `CalibrateNozzles.createDetector` (source lines 1735–1763): thresholds,
area bounds and `minCircularity` are taken from the `self.detect_*`
attributes, while `maxCircularity`, `minConvexity`, `maxConvexity` and
`minInertiaRatio` are hard-coded constants (`1`, `0.3`, `1`, `0.3`). -/
def createDetector (s : PresetState) : DetectorParams :=
  { minThreshold := s.th1
    maxThreshold := s.th2
    thresholdStep := s.thstep
    minArea := s.minArea
    maxArea := s.maxArea
    minCircularity := s.minCircularity
    maxCircularity := 1
    minConvexity := 3/10
    maxConvexity := 1
    minInertiaRatio := 3/10 }

/-- The detector parameters the specification asks for: every field equal
to the corresponding value of the currently active preset. -/
def presetDetectorParams (s : PresetState) : DetectorParams :=
  { minThreshold := s.th1
    maxThreshold := s.th2
    thresholdStep := s.thstep
    minArea := s.minArea
    maxArea := s.maxArea
    minCircularity := s.minCircularity
    maxCircularity := s.maxCircularity
    minConvexity := s.minConvexity
    maxConvexity := s.maxConvexity
    minInertiaRatio := s.minInertiaRatio }

/-- The preset-switching state of the thread (`self.loose`, the
`self.detect_*` attributes, `self.detector_changed`). -/
structure DetectorToggleState where
  loose : Bool
  params : PresetState
  detectorChanged : Bool
  deriving DecidableEq, Repr

/-- `CalibrateNozzles.toggleLoose` (source lines 943–950): flips the
active preset and marks the detector for rebuild. -/
def toggleLoose (s : DetectorToggleState) : DetectorToggleState :=
  if s.loose then ⟨false, detectParamsStandard, true⟩
  else ⟨true, detectParamsLoose, true⟩

/-! ### Export of session results (claim C8)

`analyzeResults(export=True)` (source lines 3223–3231) appends a marker
object `{ "printer": self.printerURL, "datetime": datetime.now() }` to
`self.calibrationResults` and dumps the whole list to `output.json`,
inside a `try`/`except` that logs and shows an error status on any
exception.  The file does `import datetime` (the module) at line 64, so
the expression `datetime.now()` is an attribute lookup of `now` on the
`datetime` module — which has no such attribute (the class method is
`datetime.datetime.now()`, used correctly elsewhere at line 1775). -/

/-- A JSON value (only the shapes this export produces). -/
inductive Json where
  | str (s : String)
  | arr (xs : List Json)
  | obj (fields : List (String × Json))

/-- The record emitted per tool per cycle by `result_update.emit`
(source lines 1677–1683) and appended to `self.calibrationResults` by
`addCalibrationResult` (lines 3056–3057): all five fields are strings. -/
structure ToolOffsetResult where
  tool : String
  cycle : String
  mpp : String
  x : String
  y : String
  deriving DecidableEq, Repr

/-- The JSON object a `ToolOffsetResult` dict serializes to. -/
def resultJson (r : ToolOffsetResult) : Json :=
  .obj [("tool", .str r.tool), ("cycle", .str r.cycle), ("mpp", .str r.mpp),
        ("X", .str r.x), ("Y", .str r.y)]

/-- A Python runtime error relevant to this code path. -/
inductive PyError where
  | attributeError (module attr : String)
  deriving DecidableEq, Repr

/-- The public attributes of the `datetime` *module* (what the name
`datetime` is bound to by `import datetime` at source line 64). -/
def datetimeModuleAttrs : List String :=
  ["MINYEAR", "MAXYEAR", "date", "datetime", "time", "timedelta",
   "timezone", "tzinfo"]

/-- Python attribute lookup on a module: `module.attr` succeeds only when
the module defines the attribute, otherwise raises `AttributeError`. -/
def pyModuleGetattr (module : String) (attrs : List String) (nm : String) :
    Except PyError String :=
  if nm ∈ attrs then .ok nm else .error (.attributeError module nm)

/-- Building the trailing marker object at source line 3226: evaluating
`datetime.now()` requires the attribute `now` of the `datetime` module. -/
def exportMarker (printerURL : String) : Except PyError Json := do
  let _ ← pyModuleGetattr "datetime" datetimeModuleAttrs "now"
  pure (.obj [("printer", .str printerURL), ("datetime", .str "now")])

/-- `analyzeResults(export=True)` restricted to the export branch:
returns the contents written to `output.json` (`none` when no file is
written) and whether the error status was emitted.  The `len < 1` early
return is lines 3119–3121; the `try`/`except` is lines 3225–3231. -/
def analyzeResultsExport (printerURL : String) (results : List ToolOffsetResult) :
    Option Json × Bool :=
  if results.length < 1 then (none, false)
  else
    match exportMarker printerURL with
    | .ok marker => (some (.arr (results.map resultJson ++ [marker])), false)
    | .error _ => (none, true)

/-! ### The `analyzeFrame` polling loop (claims C6 and C10)

`CalibrateNozzles.analyzeFrame` (source lines 1226–1361) polls frames in a
`while True and self.detection_on` loop.  The embedding abstracts each
iteration's inputs as streams indexed by the iteration number: the value
of `self.detection_on` at the loop condition, the keypoints the blob
detector returns on that frame, the millisecond clock when the frame is
classified, and the machine coordinates read at capture (`none` when
`getCoordinates` raised, lines 1252–1257).  Frame reads are taken to
succeed: the `not self.ret` branch only reopens the capture device and
retries, which is invisible at this level. -/

/-- A blob keypoint: `keypoints[k].pt` and `keypoints[k].size`. -/
structure Keypoint where
  ptX : ℚ
  ptY : ℚ
  size : ℚ
  deriving DecidableEq, Repr, Inhabited

/-- Machine coordinates as reported by `printer.getCoordinates()`. -/
structure MachineCoords where
  x : ℚ
  y : ℚ
  z : ℚ
  deriving DecidableEq, Repr

/-- The environment of one `analyzeFrame` call. -/
structure DetectEnv where
  flag : ℕ → Bool
  keypoints : ℕ → List Keypoint
  timeMs : ℕ → ℤ
  coords : ℕ → Option MachineCoords

/-- Per-frame classification (source lines 1313–1333): zero keypoints
(status emitted when more than 25 ms have passed since the anchor time
`rd`), more than one keypoint (the clean-the-nozzle status, same 25 ms
gate), or exactly one. -/
inductive FrameClass where
  | zero (statusEmitted : Bool)
  | many (count : ℕ) (statusEmitted : Bool)
  | one (kp : Keypoint)
  deriving DecidableEq, Repr

/-- Classify one analyzed frame from its keypoint list and the elapsed
milliseconds since the last find. -/
def classifyFrame (kps : List Keypoint) (elapsed : ℤ) : FrameClass :=
  if kps.length = 0 then .zero (25 < elapsed)
  else if 1 < kps.length then .many kps.length (25 < elapsed)
  else .one kps.headI

/-- The tuple `(xy, target, toolCoordinates, r)` returned on success
(source line 1358): the rounded keypoint center, the frame center, the
machine coordinates read at capture, and the rounded radius. -/
structure FoundData where
  xy : ℚ × ℚ
  target : ℚ × ℚ
  toolCoords : Option MachineCoords
  radius : ℚ
  deriving DecidableEq, Repr

/-- Build the success tuple from the unique keypoint of a frame
(lines 1334–1358): `xy = np.around(keypoints[0].pt)`,
`r = np.around(keypoints[0].size/2)`, `target` the frame center. -/
def mkFoundData (w h : ℚ) (kp : Keypoint) (mc : Option MachineCoords) : FoundData :=
  { xy := (around0 kp.ptX, around0 kp.ptY)
    target := (around0 (w/2), around0 (h/2))
    toolCoords := mc
    radius := around0 (kp.size/2) }

/-- How the `analyzeFrame` loop exited: the `while` condition observed the
detection flag `false` at iteration `i`, or the `break` fired on a
one-keypoint frame at iteration `i`. -/
inductive AFExit where
  | flagOff (i : ℕ)
  | found (f : FoundData) (i : ℕ)
  deriving DecidableEq, Repr

/-- The `analyzeFrame` polling loop (lines 1235–1354): state is the
iteration index `i`, the anchor time `rd` and the `nocircle` counter.
When `nocircle > 25` the frame is discarded with an error status and the
counter reset (lines 1308–1312); otherwise the frame is classified, the
zero and many cases continue polling (the zero case bumps `nocircle`
only when its status was emitted, lines 1315–1317), and the one case
breaks.  `none` means the fuel ran out before the loop exited. -/
def afLoop (env : DetectEnv) (w h : ℚ) : ℕ → ℕ → ℤ → ℕ → Option AFExit
  | 0, _, _, _ => none
  | fuel + 1, i, rd, nocircle =>
    if env.flag i = false then some (.flagOff i)
    else if 25 < nocircle then afLoop env w h fuel (i+1) rd 0
    else
      match classifyFrame (env.keypoints i) (env.timeMs i - rd) with
      | .zero em => afLoop env w h fuel (i+1) rd (nocircle + if em then 1 else 0)
      | .many _ _ => afLoop env w h fuel (i+1) rd nocircle
      | .one kp => some (.found (mkFoundData w h kp (env.coords i)) i)

/-- The value `analyzeFrame` returns for each loop exit (lines
1356–1361): the tuple when `self.detection_on` was still set (break
path), `None` when the loop exited because the flag went `false`. -/
def afReturn : AFExit → Option FoundData
  | .flagOff _ => none
  | .found f _ => some f

/-- The tuple-unpacking assignment in `calibrateTool` (line 1484):
`(self.xy, self.target, self.tool_coordinates, self.radius) =
self.analyzeFrame()` — a `None` return raises `TypeError`. -/
def unpackFour : Option FoundData → Except String FoundData
  | some f => .ok f
  | none => .error "TypeError: cannot unpack non-iterable NoneType object"

/-! ### The `calibrateTool` control loop (claims C1–C5)

`CalibrateNozzles.calibrateTool` (source lines 1445–1691) is a `while
True` loop.  Each iteration obtains one detection (`analyzeFrame` /
`analyzeEndstop`), accumulates it into `self.average_location` and bumps
`self.detect_count`; once `detect_count >= 5` the average is divided out
and rounded, one further "validated" detection is taken, and the state
dispatch (camera-calibration states `0`, `1..9`, `10`, then centering
state `200`) runs on that fresh detection.  The embedding drives the
loop from an environment: a stream of detections (camera pixel `xy`
paired with the machine `XY` read at capture, abstracting the
`analyzeFrame` result of the previous section), an abstract
least-squares solver for `np.linalg.lstsq`, an abstract square root for
`getDistance`, the configured frame size, the control-point coordinates
and the firmware tool offset.  Every printer command the loop issues is
recorded as an event. -/

/-- Externally visible actions of `calibrateTool` / `run`, in program
order. -/
inductive Ev where
  | moveRelative (xy : ℚ × ℚ)
  | moveAbsoluteXY (xy : ℚ × ℚ)
  | moveAbsoluteAxis (v : ℚ)
  | moveAbsoluteBare
  | limitAxes
  | fitTransform (input : List ((ℚ × ℚ) × (ℚ × ℚ)))
  | idleStatusObserved
  | loadTool (n : ℕ)
  deriving DecidableEq, Repr

/-- The environment `calibrateTool` runs against. -/
structure CalibEnv where
  det : ℕ → (ℚ × ℚ) × (ℚ × ℚ)
  fit : List ((ℚ × ℚ) × (ℚ × ℚ)) → Transform
  sqrtQ : ℚ → ℚ
  w : ℚ
  h : ℚ
  cp : ℚ × ℚ
  cpz : ℚ
  toolOffset : ℚ × ℚ

/-- The mutable attributes of `calibrateTool`'s loop, plus the index of
the next detection to consume and the trace of issued commands. -/
structure CalibState where
  state : ℕ
  averageLocation : ℚ × ℚ
  detectCount : ℕ
  oldxy : ℚ × ℚ
  spaceCoords : List (ℚ × ℚ)
  cameraCoords : List (ℚ × ℚ)
  offsetX : ℚ
  offsetY : ℚ
  calibrationMoves : ℕ
  mpp : Option ℚ
  transformMatrix : Option Transform
  xy : ℚ × ℚ
  toolCoords : ℚ × ℚ
  detIdx : ℕ
  events : List Ev
  deriving Repr

/-- The values returned by a completed (non-endstop) `calibrateTool` run:
`_return['X']`, `_return['Y']`, `_return['MPP']` (lines 1653–1656). -/
structure RetVals where
  x : ℚ
  y : ℚ
  mpp : ℚ
  deriving DecidableEq, Repr

/-- Terminal result of `calibrateTool`: the final loop state (with the
full event trace) and the returned offsets (`none` for the endstop case,
whose `return` at line 1685 carries no value). -/
structure CalibDone where
  finalState : CalibState
  ret : Option RetVals
  deriving Repr

/-- The all-zero 6×2 matrix, placeholder for an absent transform. -/
def zeroTransform : Transform := ⟨(0,0),(0,0),(0,0),(0,0),(0,0),(0,0)⟩

instance : Inhabited Transform := ⟨zeroTransform⟩

/-- `self.calibrationCoordinates` (source line 1467): the fixed 10-point
calibration move pattern, a 0.5 mm-radius decagon. -/
def calibrationCoordinates : List (ℚ × ℚ) :=
  [(0, -1/2), (294/1000, -405/1000), (476/1000, -155/1000), (476/1000, 155/1000),
   (294/1000, 405/1000), (0, 1/2), (-294/1000, 405/1000), (-476/1000, 155/1000),
   (-476/1000, -155/1000), (-294/1000, -405/1000)]

/-- `CalibrateNozzles.getDistance` (lines 1709–1717): Euclidean distance,
rounded to 3 decimals; the square root is supplied by the environment. -/
def getDistance (env : CalibEnv) (p q : ℚ × ℚ) : ℚ :=
  around3 (env.sqrtQ ((p.1 - q.1)^2 + (p.2 - q.2)^2))

/-- The corrective offsets computed in centering state 200 (lines
1611–1615) from the current detection `s.xy` and the stored transform. -/
def centeringOffsets (env : CalibEnv) (s : CalibState) : ℚ × ℚ :=
  let c := normalize_coords env.w env.h s.xy
  codeOffsets (s.transformMatrix.getD zeroTransform) c.1 c.2

/-- The state dispatch of `calibrateTool` (source lines 1508–1691),
executed on a validated detection (`s.xy`, `s.toolCoords`).  Returns the
next loop state, or the terminal result when the centering state
converges and the function returns.  In the centering state the
`moveRelative` is issued only on the non-endstop path (lines 1617–1627);
the endstop path instead zeroes offsets already strictly within `0.05`. -/
def dispatch (env : CalibEnv) (isEndstop : Bool) (s : CalibState) :
    CalibState ⊕ CalibDone :=
  if s.state = 0 then
    let off := calibrationCoordinates.getD 0 (0, 0)
    .inl { s with
      oldxy := s.xy
      spaceCoords := [s.toolCoords]
      cameraCoords := [s.xy]
      offsetX := off.1
      offsetY := off.2
      events := s.events ++ [.moveRelative off]
      state := 1 }
  else if 1 ≤ s.state ∧ s.state < calibrationCoordinates.length then
    let m' := if s.state = 1
      then some (around4 ((1/2) / getDistance env s.oldxy s.xy))
      else s.mpp
    let back : ℚ × ℚ := (-1 * s.offsetX, -1 * s.offsetY)
    let off := calibrationCoordinates.getD s.state (0, 0)
    .inl { s with
      mpp := m'
      oldxy := s.xy
      spaceCoords := s.spaceCoords ++ [s.toolCoords]
      cameraCoords := s.cameraCoords ++ [s.xy]
      offsetX := off.1
      offsetY := off.2
      events := s.events ++ [.moveRelative back, .moveRelative off]
      state := s.state + 1 }
  else if s.state = calibrationCoordinates.length then
    let sp := s.spaceCoords ++ [s.toolCoords]
    let cam := s.cameraCoords ++ [s.xy]
    let input := (List.zip sp cam).map
      (fun pc => (pc.1, normalize_coords env.w env.h pc.2))
    let T := env.fit input
    let center := applyTT T featureVecCenter
    let guess := (around3 center.1, around3 center.2)
    .inl { s with
      oldxy := s.xy
      spaceCoords := sp
      cameraCoords := cam
      transformMatrix := some T
      events := s.events ++ [.fitTransform input, .moveAbsoluteXY guess]
      state := 200 }
  else if s.state = 200 then
    let off := centeringOffsets env s
    let offE := if isEndstop
      then (if |off.1| < 1/20 ∧ |off.2| < 1/20 then (0, 0) else off)
      else off
    let moveEvs : List Ev := if isEndstop then [] else [.limitAxes, .moveRelative off]
    let s1 := { s with
      calibrationMoves := s.calibrationMoves + 1
      oldxy := s.xy
      events := s.events ++ moveEvs }
    if offE = (0, 0) then
      if isEndstop then
        .inr { finalState := { s1 with events := s1.events ++ [.moveAbsoluteBare, .moveAbsoluteBare] }
               ret := none }
      else
        let fx := around3 ((env.cp.1 + env.toolOffset.1) - s.toolCoords.1)
        let fy := around3 ((env.cp.2 + env.toolOffset.2) - s.toolCoords.2)
        .inr { finalState := { s1 with events := s1.events ++ [.moveAbsoluteBare, .moveAbsoluteBare] }
               ret := some ⟨fx, fy, s.mpp.getD 0⟩ }
    else .inl { s1 with state := 200 }
  else
    .inl s

/-- One iteration of the `while True` loop (lines 1481–1691): consume one
detection, accumulate it into the running average, and — once
`detect_count >= 5` (`self.position_iterations`) — divide and round the
average, take one further validated detection, and run the state
dispatch on that fresh detection.  Neither `average_location` nor
`detect_count` is ever reset (the assignments at lines 1689–1691 touch
the unused `self.avg` / `self.count`). -/
def calibStep (env : CalibEnv) (isEndstop : Bool) (s : CalibState) :
    CalibState ⊕ CalibDone :=
  let d1 := env.det s.detIdx
  let s1 := { s with
    xy := d1.1
    toolCoords := d1.2
    averageLocation := (s.averageLocation.1 + d1.1.1, s.averageLocation.2 + d1.1.2)
    detectCount := s.detectCount + 1
    detIdx := s.detIdx + 1 }
  if s1.detectCount ≥ 5 then
    let avg := (around3 (s1.averageLocation.1 / (s1.detectCount : ℚ)),
                around3 (s1.averageLocation.2 / (s1.detectCount : ℚ)))
    let d2 := env.det s1.detIdx
    dispatch env isEndstop
      { s1 with
        averageLocation := avg
        xy := d2.1
        toolCoords := d2.2
        detIdx := s1.detIdx + 1 }
  else .inl s1

/-- Iterate `calibStep` a fixed number of times (a terminal result is
absorbing). -/
def calibIter (env : CalibEnv) (isEndstop : Bool) :
    ℕ → CalibState ⊕ CalibDone → CalibState ⊕ CalibDone
  | 0, x => x
  | n + 1, x =>
    match x with
    | .inl s => calibIter env isEndstop n (calibStep env isEndstop s)
    | .inr d => .inr d

/-- Run the loop to completion with the given fuel; `none` when the fuel
is exhausted before `calibrateTool` returns. -/
def calibRun (env : CalibEnv) (isEndstop : Bool) :
    ℕ → CalibState → Option CalibDone
  | 0, _ => none
  | fuel + 1, s =>
    match calibStep env isEndstop s with
    | .inl s' => calibRun env isEndstop fuel s'
    | .inr d => some d

/-- Embedding of `len(self.transform_matrix)`: the attribute is `[]`
(length `0`) until a fit stores the 6×2 matrix (length `6`). -/
def tmLen : Option Transform → ℕ
  | none => 0
  | some _ => 6

/-- The local-variable initialisation of `calibrateTool` (lines
1445–1479), parameterised by the thread-persistent attributes
`self.transform_matrix` and `self.mpp`: when a transform is already
stored (`len(self.transform_matrix) > 1`, lines 1469–1472) the run
starts directly in centering state 200, otherwise in camera-calibration
state 0. -/
def calibInit (tm : Option Transform) (m : Option ℚ) : CalibState :=
  { state := if tmLen tm > 1 then 200 else 0
    averageLocation := (0, 0)
    detectCount := 0
    oldxy := (0, 0)
    spaceCoords := []
    cameraCoords := []
    offsetX := 0
    offsetY := 0
    calibrationMoves := 0
    mpp := m
    transformMatrix := tm
    xy := (0, 0)
    toolCoords := (0, 0)
    detIdx := 0
    events := [] }

/-- The event trace of a loop point, whether still looping or returned. -/
def traceOf : CalibState ⊕ CalibDone → List Ev :=
  Sum.elim (fun s => s.events) (fun d => d.finalState.events)

/-- The loop state of a loop point, whether still looping or returned. -/
def stateOf : CalibState ⊕ CalibDone → CalibState :=
  Sum.elim id (fun d => d.finalState)

/-- The relative moves contained in a trace, in order. -/
def relMoves (evs : List Ev) : List (ℚ × ℚ) :=
  evs.filterMap (fun e => match e with | .moveRelative xy => some xy | _ => none)

/-- The lengths of the sample lists passed to `least_square_mapping`, one
entry per fit performed in the trace. -/
def fitPayloadLengths (evs : List Ev) : List ℕ :=
  evs.filterMap (fun e => match e with | .fitTransform l => some l.length | _ => none)

/-- The per-tool portion of `CalibrateNozzles.run` (source lines
1060–1103): load the tool, move it to the control point one axis at a
time, poll the printer's status until it reports idle (the `while
getStatus() not in 'idle'` loop at lines 1072–1091 evaluates the status
at least once, `polls` extra times while busy), then call
`calibrateTool`. -/
def perToolTrace (env : CalibEnv) (toolNum polls fuel : ℕ)
    (tm : Option Transform) (m : Option ℚ) : List Ev :=
  ([.loadTool toolNum, .moveAbsoluteAxis env.cp.1, .moveAbsoluteAxis env.cp.2,
    .moveAbsoluteAxis env.cpz]
    ++ List.replicate (polls + 1) .idleStatusObserved)
  ++ traceOf (calibIter env false fuel (.inl (calibInit tm m)))

/-- Check of the in-flight discipline claimed by the specification: after
a relative move has been issued, another relative move may only follow
once an idle status observation has occurred in between. -/
def idleSeparatesMoves : Bool → List Ev → Bool
  | _, [] => true
  | seenMove, .moveRelative _ :: rest =>
      if seenMove then false else idleSeparatesMoves true rest
  | _, .idleStatusObserved :: rest => idleSeparatesMoves false rest
  | seenMove, _ :: rest => idleSeparatesMoves seenMove rest

/-! ### Concrete runs used as witnesses and counterexamples -/

/-- An environment whose detections are all at pixel `(0,0)` and whose
abstract least-squares solver returns the zero matrix. -/
def envZero : CalibEnv :=
  { det := fun _ => ((0, 0), (0, 0))
    fit := fun _ => zeroTransform
    sqrtQ := fun _ => 0
    w := 640
    h := 480
    cp := (0, 0)
    cpz := 0
    toolOffset := (0, 0) }

/-- A transform whose only nonzero entry maps the `cx` feature to the
machine X axis. -/
def transformX : Transform := ⟨(0,0),(0,0),(0,0),(1,0),(0,0),(0,0)⟩

/-- An environment for centering-phase runs: the first five detections sit
exactly at the frame center `(320, 240)`, the sixth (the validated basis
detection) at `(0, 240)`, and the eighth — the basis of the second
centering cycle — back at the center. -/
def envCenter : CalibEnv :=
  { det := fun i => if i = 5 then ((0, 240), (0, 0)) else ((320, 240), (0, 0))
    fit := fun _ => zeroTransform
    sqrtQ := fun _ => 0
    w := 640
    h := 480
    cp := (0, 0)
    cpz := 0
    toolOffset := (0, 0) }

/-- The first `calibrateTool` invocation of a session against `envZero`,
run to completion: the thread starts with `self.transform_matrix = []`
(set in `__init__`, line 886), so `calibInit none none`. -/
def sessionCall1 : Option CalibDone := calibRun envZero false 16 (calibInit none none)

/-- The thread-persistent `self.transform_matrix` after the first
invocation returns. -/
def tmAfterCall1 : Option Transform :=
  match sessionCall1 with
  | some d => d.finalState.transformMatrix
  | none => none

/-- The thread-persistent `self.mpp` after the first invocation returns. -/
def mppAfterCall1 : Option ℚ :=
  match sessionCall1 with
  | some d => d.finalState.mpp
  | none => none

/-- The second `calibrateTool` invocation of the same session (next tool
or next cycle), started from the thread attributes the first invocation
left behind. -/
def sessionCall2 : Option CalibDone :=
  calibRun envZero false 5 (calibInit tmAfterCall1 mppAfterCall1)

/-- A centering-phase loop state: a fresh `calibrateTool` run that starts
with the stored transform `T` (hence in state 200), whose current
validated detection is `xy`. -/
def centeringStateAt (T : Transform) (xy : ℚ × ℚ) : CalibState :=
  { calibInit (some T) none with xy := xy }

/-- A detection environment whose first frame holds exactly one keypoint. -/
def detEnvOne : DetectEnv :=
  { flag := fun _ => true
    keypoints := fun _ => [⟨10, 20, 6⟩]
    timeMs := fun _ => 100
    coords := fun _ => some ⟨1, 2, 3⟩ }

/-- A detection environment whose flag is down from the start. -/
def detEnvOff : DetectEnv :=
  { flag := fun _ => false
    keypoints := fun _ => []
    timeMs := fun _ => 0
    coords := fun _ => none }

/-! ## Theorems -/

theorem around3_zero : around3 0 = 0 := by
  norm_num [around3, roundHalfEven]

/-- Claim C7: for every fitted transform `T` and every normalized detected
position `(cx, cy)`, the corrective offset computed by the code equals
`-0.55 · T.T · [cx², cy², cx·cy, cx, cy, 0]` with each component rounded to
3 decimal places; and at the camera's fitted center point, i.e. normalized
coordinates `(0, 0)`, the offset is `(0, 0)`. -/
theorem C7_offset_formula_and_zero_at_center :
    (∀ (T : Transform) (cx cy : ℚ), codeOffsets T cx cy = specOffsets T cx cy) ∧
    (∀ T : Transform, codeOffsets T 0 0 = (0, 0)) := by
  constructor
  · intro T cx cy
    unfold codeOffsets specOffsets
    have h1 : -1 * (55/100 * (applyTT T (featureVecOffset cx cy)).1)
        = -(55/100) * (applyTT T (featureVecOffset cx cy)).1 := by ring
    have h2 : -1 * (55/100 * (applyTT T (featureVecOffset cx cy)).2)
        = -(55/100) * (applyTT T (featureVecOffset cx cy)).2 := by ring
    rw [h1, h2]
  · intro T
    unfold codeOffsets
    have h1 : (applyTT T (featureVecOffset 0 0)).1 = 0 := by
      simp [applyTT, featureVecOffset]
    have h2 : (applyTT T (featureVecOffset 0 0)).2 = 0 := by
      simp [applyTT, featureVecOffset]
    rw [h1, h2]
    norm_num [around3_zero]

/-- Claim C9 fails on the code: after switching to the "relaxed" (loose)
preset, the next detector rebuild hard-codes `minConvexity = 0.3` although
the active preset specifies `0.1`, so the constructed detector's
parameters do not all equal the active preset's values.  (With the
"standard" preset the hard-coded constants happen to coincide, so the
mismatch is only observable on the loose preset.) -/
theorem C9_loose_preset_minConvexity_ignored :
    (toggleLoose ⟨false, detectParamsStandard, false⟩).params = detectParamsLoose ∧
    (createDetector detectParamsLoose).minConvexity = 3/10 ∧
    detectParamsLoose.minConvexity = 1/10 ∧
    createDetector detectParamsLoose ≠ presetDetectorParams detectParamsLoose ∧
    createDetector detectParamsStandard = presetDetectorParams detectParamsStandard := by
  refine ⟨rfl, rfl, rfl, ?_, rfl⟩
  intro h
  have := congrArg DetectorParams.minConvexity h
  simp [createDetector, presetDetectorParams, detectParamsLoose] at this
  norm_num at this

/-- Claim C8 fails on the code: exporting never writes the JSON artifact at
all.  Building the trailing `{printer, datetime}` marker evaluates
`datetime.now()`, which raises `AttributeError` (the file imports the
`datetime` module, which has no attribute `now`); the surrounding
`except` swallows the exception and emits an error status, so no file is
produced for any result list — the claimed write-then-read round-trip
cannot even start. -/
theorem C8_export_marker_raises_and_no_file_written :
    ∀ (url : String) (results : List ToolOffsetResult)
      (r : ToolOffsetResult) (rs : List ToolOffsetResult),
    exportMarker url = .error (.attributeError "datetime" "now") ∧
    (analyzeResultsExport url results).1 = none ∧
    analyzeResultsExport url (r :: rs) = (none, true) := by
  intro url results r rs
  refine ⟨rfl, ?_, rfl⟩
  cases results <;> rfl

theorem classify_one_elim {kps : List Keypoint} {e : ℤ} {kp : Keypoint}
    (h : classifyFrame kps e = .one kp) : kps.length = 1 ∧ kp = kps.headI := by
  unfold classifyFrame at h
  split_ifs at h with h1 h2
  injection h with h3
  exact ⟨by omega, h3.symm⟩

theorem afLoop_found_elim : ∀ (fuel : ℕ) (env : DetectEnv) (w h : ℚ) (i : ℕ) (rd : ℤ)
    (nc : ℕ) (f : FoundData) (j : ℕ),
    afLoop env w h fuel i rd nc = some (.found f j) →
    (env.keypoints j).length = 1 ∧
    f = mkFoundData w h (env.keypoints j).headI (env.coords j) := by
  intro fuel
  induction fuel with
  | zero =>
    intro env w h i rd nc f j hyp
    simp [afLoop] at hyp
  | succ n ih =>
    intro env w h i rd nc f j hyp
    rw [afLoop] at hyp
    by_cases hf : env.flag i = false
    · simp [hf] at hyp
    · simp only [hf, if_false] at hyp
      by_cases hn : 25 < nc
      · rw [if_pos hn] at hyp
        exact ih env w h (i+1) rd 0 f j hyp
      · rw [if_neg hn] at hyp
        cases hc : classifyFrame (env.keypoints i) (env.timeMs i - rd) with
        | zero em =>
          rw [hc] at hyp
          exact ih _ _ _ _ _ _ _ _ hyp
        | many c em =>
          rw [hc] at hyp
          exact ih _ _ _ _ _ _ _ _ hyp
        | one kp =>
          rw [hc] at hyp
          obtain ⟨hlen, hkp⟩ := classify_one_elim hc
          injection hyp with hyp'
          injection hyp' with h1 h2
          subst h2
          exact ⟨hlen, by rw [← h1, hkp]⟩

theorem afLoop_flagOff_elim : ∀ (fuel : ℕ) (env : DetectEnv) (w h : ℚ) (i : ℕ) (rd : ℤ)
    (nc : ℕ) (j : ℕ),
    afLoop env w h fuel i rd nc = some (.flagOff j) → env.flag j = false := by
  intro fuel
  induction fuel with
  | zero =>
    intro env w h i rd nc j hyp
    simp [afLoop] at hyp
  | succ n ih =>
    intro env w h i rd nc j hyp
    rw [afLoop] at hyp
    by_cases hf : env.flag i = false
    · rw [if_pos hf] at hyp
      injection hyp with hyp'
      injection hyp' with h1
      subst h1
      exact hf
    · rw [if_neg hf] at hyp
      by_cases hn : 25 < nc
      · rw [if_pos hn] at hyp
        exact ih env w h (i+1) rd 0 j hyp
      · rw [if_neg hn] at hyp
        cases hc : classifyFrame (env.keypoints i) (env.timeMs i - rd) with
        | zero em =>
          rw [hc] at hyp
          exact ih _ _ _ _ _ _ _ hyp
        | many c em =>
          rw [hc] at hyp
          exact ih _ _ _ _ _ _ _ hyp
        | one kp =>
          rw [hc] at hyp
          simp at hyp

/-- Claim C6: the frame-analysis loop reports a `Found` result (rounded
pixel center, frame-center target, machine coordinates at capture,
rounded radius) only for a frame on which exactly one circle was
detected; a frame with zero circles is classified as the no-circle
outcome whose status is emitted exactly when more than 25 ms have passed
since the last find, a frame with more than one circle as the
too-many/clean-the-nozzle outcome carrying the actual count, and both
continue polling rather than returning. -/
theorem C6_found_only_on_single_circle :
    (∀ (kps : List Keypoint) (e : ℤ),
        (∃ kp, classifyFrame kps e = .one kp) ↔ kps.length = 1) ∧
    (∀ e : ℤ, classifyFrame [] e = .zero (25 < e)) ∧
    (∀ (kps : List Keypoint) (e : ℤ), 1 < kps.length →
        classifyFrame kps e = .many kps.length (25 < e)) ∧
    (∀ (env : DetectEnv) (w h : ℚ) (fuel i : ℕ) (rd : ℤ) (nc : ℕ)
        (f : FoundData) (j : ℕ),
        afLoop env w h fuel i rd nc = some (.found f j) →
          (env.keypoints j).length = 1 ∧
          f = mkFoundData w h (env.keypoints j).headI (env.coords j) ∧
          afReturn (.found f j) = some f) := by
  refine ⟨?_, ?_, ?_, ?_⟩
  · intro kps e
    constructor
    · rintro ⟨kp, hkp⟩
      exact (classify_one_elim hkp).1
    · intro hlen
      refine ⟨kps.headI, ?_⟩
      unfold classifyFrame
      rw [if_neg (by omega), if_neg (by omega)]
  · intro e
    rfl
  · intro kps e hlen
    unfold classifyFrame
    rw [if_neg (by omega), if_pos hlen]
  · intro env w h fuel i rd nc f j hyp
    obtain ⟨h1, h2⟩ := afLoop_found_elim fuel env w h i rd nc f j hyp
    exact ⟨h1, h2, rfl⟩

/-- Witness for C6 at concrete inputs: a one-keypoint environment on which
the loop exits with a find, and a two-keypoint frame classified as the
too-many outcome with its count. -/
theorem C6_witness :
    (detEnvOne.keypoints 0).length = 1 ∧
    classifyFrame [⟨1, 1, 1⟩, ⟨2, 2, 2⟩] 30 = .many 2 true :=
  ⟨(C6_found_only_on_single_circle.2.2.2 detEnvOne 640 480 1 0 0 0 _ 0 rfl).1,
   by simpa using C6_found_only_on_single_circle.2.2.1 [⟨1, 1, 1⟩, ⟨2, 2, 2⟩] 30 (by simp)⟩

/-- Claim C10: when the detection flag is observed `false` at the frame
loop's exit, `analyzeFrame` returns `None` rather than the four-element
tuple, and the tuple-unpacking assignment in `calibrateTool` fails with a
`TypeError` on that `None`. -/
theorem C10_flag_off_returns_none :
    ∀ (env : DetectEnv) (w h : ℚ) (fuel i : ℕ) (rd : ℤ) (nc j : ℕ),
      afLoop env w h fuel i rd nc = some (.flagOff j) →
        env.flag j = false ∧
        (afLoop env w h fuel i rd nc).map afReturn = some none ∧
        unpackFour none = .error "TypeError: cannot unpack non-iterable NoneType object" := by
  intro env w h fuel i rd nc j hyp
  refine ⟨afLoop_flagOff_elim fuel env w h i rd nc j hyp, ?_, rfl⟩
  rw [hyp]
  rfl

/-- Witness for C10: the environment whose flag is down from the start. -/
theorem C10_witness :
    detEnvOff.flag 0 = false ∧
    (afLoop detEnvOff 640 480 1 0 0 0).map afReturn = some none ∧
    unpackFour none = .error "TypeError: cannot unpack non-iterable NoneType object" :=
  C10_flag_off_returns_none detEnvOff 640 480 1 0 0 0 0 rfl

/-- Claim C1 as amended: one sample pair is recorded at the starting
position (state 0) and one after each of the 10 pattern moves (states
1–9 and the finalize state 10), so the list passed to the least-squares
fit has length exactly 11 — not 10 — for every environment; and the
relative moves issued during the camera-calibration phase are the fixed
decagon pattern offsets in order, each interleaved with the return move
that negates the previous offset. -/
theorem C1_fit_gets_eleven_samples : ∀ env : CalibEnv,
    fitPayloadLengths (traceOf (calibIter env false 15 (.inl (calibInit none none)))) = [11] ∧
    relMoves (traceOf (calibIter env false 15 (.inl (calibInit none none)))) =
      [(0, -1/2),
       (0, 1/2), (294/1000, -405/1000),
       (-294/1000, 405/1000), (476/1000, -155/1000),
       (-476/1000, 155/1000), (476/1000, 155/1000),
       (-476/1000, -155/1000), (294/1000, 405/1000),
       (-294/1000, -405/1000), (0, 1/2),
       (0, -1/2), (-294/1000, 405/1000),
       (294/1000, -405/1000), (-476/1000, 155/1000),
       (476/1000, -155/1000), (-476/1000, -155/1000),
       (476/1000, 155/1000), (-294/1000, -405/1000)] := by
  intro env
  constructor
  · simp [calibIter, calibStep, dispatch, calibInit, tmLen, traceOf, fitPayloadLengths,
      calibrationCoordinates]
  · simp [calibIter, calibStep, dispatch, calibInit, tmLen, traceOf, relMoves,
      calibrationCoordinates]
    norm_num

/-- Counterexample to C1 as stated: in a concrete full camera-calibration
run the single least-squares fit receives a sample list of length 11,
not 10. -/
theorem C1_counterexample_eleven_not_ten :
    fitPayloadLengths (traceOf (calibIter envZero false 15 (.inl (calibInit none none)))) = [11] ∧
    fitPayloadLengths (traceOf (calibIter envZero false 15 (.inl (calibInit none none)))) ≠ [10] := by
  constructor
  · simp [calibIter, calibStep, dispatch, calibInit, tmLen, traceOf, fitPayloadLengths,
      calibrationCoordinates]
  · simp [calibIter, calibStep, dispatch, calibInit, tmLen, traceOf, fitPayloadLengths,
      calibrationCoordinates]

theorem fitPayloadLengths_append (a b : List Ev) :
    fitPayloadLengths (a ++ b) = fitPayloadLengths a ++ fitPayloadLengths b := by
  simp [fitPayloadLengths]

theorem dispatch_200_no_fit (env : CalibEnv) (isE : Bool) (s : CalibState)
    (h : s.state = 200) :
    fitPayloadLengths (traceOf (dispatch env isE s)) = fitPayloadLengths s.events ∧
    ∀ s', dispatch env isE s = .inl s' → s'.state = 200 := by
  unfold dispatch
  rw [h]
  simp only [calibrationCoordinates]
  norm_num
  split_ifs <;>
    simp_all [traceOf, fitPayloadLengths_append, fitPayloadLengths]

theorem calibStep_200_no_fit (env : CalibEnv) (isE : Bool) (s : CalibState)
    (h : s.state = 200) :
    fitPayloadLengths (traceOf (calibStep env isE s)) = fitPayloadLengths s.events ∧
    ∀ s', calibStep env isE s = .inl s' → s'.state = 200 := by
  simp only [calibStep]
  by_cases hq : s.detectCount + 1 ≥ 5
  · simp only [hq, if_true]
    exact dispatch_200_no_fit env isE _ h
  · simp only [hq, if_false]
    constructor
    · simp [traceOf]
    · intro s' hs'
      injection hs' with hs''
      rw [← hs'']
      exact h

theorem calibIter_200_no_fit (env : CalibEnv) (isE : Bool) :
    ∀ (fuel : ℕ) (x : CalibState ⊕ CalibDone),
    (∀ s, x = .inl s → s.state = 200) →
    (∀ s, calibIter env isE fuel x = .inl s → s.state = 200) ∧
    fitPayloadLengths (traceOf (calibIter env isE fuel x)) = fitPayloadLengths (traceOf x) := by
  intro fuel
  induction fuel with
  | zero =>
    intro x h1
    exact ⟨h1, rfl⟩
  | succ n ih =>
    intro x h1
    cases x with
    | inr d =>
      simp [calibIter]
    | inl s =>
      have hs := h1 s rfl
      have hstep := calibStep_200_no_fit env isE s hs
      simp only [calibIter]
      have := ih (calibStep env isE s) hstep.2
      refine ⟨this.1, ?_⟩
      rw [this.2, hstep.1]
      rfl

/-- Claim C2 as amended: only a `calibrateTool` invocation that starts
with `self.transform_matrix` still empty runs the camera-calibration
phase; whenever a transform from an earlier invocation is already stored
(`len(self.transform_matrix) > 1`), the run starts directly in centering
state 200 and — for any environment, fuel and endstop mode — performs no
least-squares fit at all, reusing the earlier transform. -/
theorem C2_stored_transform_reused : ∀ (env : CalibEnv) (isE : Bool) (T : Transform)
    (m : Option ℚ) (fuel : ℕ),
    (calibInit (some T) m).state = 200 ∧
    fitPayloadLengths (traceOf (calibIter env isE fuel (.inl (calibInit (some T) m)))) = [] := by
  intro env isE T m fuel
  have hinit : (calibInit (some T) m).state = 200 := by simp [calibInit, tmLen]
  refine ⟨hinit, ?_⟩
  have := calibIter_200_no_fit env isE fuel (.inl (calibInit (some T) m))
    (fun s hs => by injection hs with h'; rw [← h']; exact hinit)
  rw [this.2]
  simp [traceOf, calibInit, fitPayloadLengths]

set_option maxHeartbeats 1600000 in
/-- Counterexample to C2 as stated: in a concrete two-invocation session
the first `calibrateTool` run stores a transform, and the second
invocation (the next tool or cycle) performs zero least-squares fits
instead of fitting a fresh transform — it reuses the stored one. -/
theorem C2_counterexample_second_call_no_fit :
    tmAfterCall1 = some zeroTransform ∧
    (calibInit tmAfterCall1 mppAfterCall1).state = 200 ∧
    (sessionCall2.map fun d => fitPayloadLengths d.finalState.events) = some [] := by
  have h1 : tmAfterCall1 = some zeroTransform := by
    norm_num [tmAfterCall1, sessionCall1, calibRun, calibStep, dispatch, calibInit, tmLen,
      calibrationCoordinates, envZero, centeringOffsets, codeOffsets, normalize_coords,
      applyTT, featureVecOffset, featureVecCenter, zeroTransform, around3, around4,
      roundHalfEven, getDistance]
  have h2 : mppAfterCall1 = some 0 := by
    norm_num [mppAfterCall1, sessionCall1, calibRun, calibStep, dispatch, calibInit, tmLen,
      calibrationCoordinates, envZero, centeringOffsets, codeOffsets, normalize_coords,
      applyTT, featureVecOffset, featureVecCenter, zeroTransform, around3, around4,
      roundHalfEven, getDistance]
  refine ⟨h1, ?_, ?_⟩
  · rw [h1]
    simp [calibInit, tmLen]
  · unfold sessionCall2
    rw [h1, h2]
    norm_num [calibRun, calibStep, dispatch, calibInit, tmLen, calibrationCoordinates,
      envZero, centeringOffsets, codeOffsets, normalize_coords, applyTT, featureVecOffset,
      zeroTransform, around3, roundHalfEven, fitPayloadLengths]

theorem relMoves_append (a b : List Ev) :
    relMoves (a ++ b) = relMoves a ++ relMoves b := by
  simp [relMoves]

theorem dispatch_200_eq (env : CalibEnv) (isE : Bool) (s : CalibState)
    (h : s.state = 200) :
    dispatch env isE s =
      (let off := centeringOffsets env s
       let offE := if isE
         then (if |off.1| < 1/20 ∧ |off.2| < 1/20 then ((0:ℚ), (0:ℚ)) else off)
         else off
       let moveEvs : List Ev := if isE then [] else [.limitAxes, .moveRelative off]
       let s1 := { s with
         calibrationMoves := s.calibrationMoves + 1
         oldxy := s.xy
         events := s.events ++ moveEvs }
       if offE = (0, 0) then
         if isE then
           Sum.inr { finalState := { s1 with events := s1.events ++ [.moveAbsoluteBare, .moveAbsoluteBare] }
                     ret := none }
         else
           Sum.inr { finalState := { s1 with events := s1.events ++ [.moveAbsoluteBare, .moveAbsoluteBare] }
                     ret := some ⟨around3 ((env.cp.1 + env.toolOffset.1) - s.toolCoords.1),
                                  around3 ((env.cp.2 + env.toolOffset.2) - s.toolCoords.2),
                                  s.mpp.getD 0⟩ }
       else Sum.inl { s1 with state := 200 }) := by
  unfold dispatch
  rw [h]
  rw [if_neg (by norm_num), if_neg (by simp [calibrationCoordinates]),
      if_neg (by simp [calibrationCoordinates]), if_pos rfl]

/-- Claim C3 as amended: in centering state 200 a nozzle-calibration
iteration always issues exactly one relative move (the rounded corrective
offset) and terminates exactly when both rounded offset components are
zero; an endstop iteration issues no relative move at all and terminates
exactly when both rounded offset components are strictly within 0.05 of
zero. -/
theorem C3_centering_moves_and_termination : ∀ (env : CalibEnv) (s : CalibState),
    s.state = 200 →
    relMoves (traceOf (dispatch env false s)) = relMoves s.events ++ [centeringOffsets env s] ∧
    relMoves (traceOf (dispatch env true s)) = relMoves s.events ∧
    ((dispatch env false s).isRight = true ↔ centeringOffsets env s = (0, 0)) ∧
    ((dispatch env true s).isRight = true ↔
      (|(centeringOffsets env s).1| < 1/20 ∧ |(centeringOffsets env s).2| < 1/20)) := by
  intro env s h
  rw [dispatch_200_eq env false s h, dispatch_200_eq env true s h]
  simp only [if_true, if_false, Bool.false_eq_true, ite_false, ite_true]
  refine ⟨?_, ?_, ?_, ?_⟩
  · split_ifs <;> simp [traceOf, relMoves_append, relMoves]
  · split_ifs <;> simp [traceOf, relMoves_append, relMoves]
  · split_ifs with h1 <;> simp_all
  · by_cases hlt : |(centeringOffsets env s).1| < 1/20 ∧ |(centeringOffsets env s).2| < 1/20
    · rw [if_pos hlt]
      simp only [one_div] at hlt
      simp [hlt]
    · rw [if_neg hlt]
      have hne : ¬ centeringOffsets env s = (0, 0) := by
        intro hz
        rw [hz] at hlt
        norm_num at hlt
      rw [if_neg hne]
      simp only [Sum.isRight_inl]
      norm_num
      intro ha
      by_contra hb
      push_neg at hb
      exact hlt ⟨by linarith, by linarith⟩

/-- Witness for C3 at a concrete centering state and environment. -/
theorem C3_witness :
    relMoves (traceOf (dispatch envCenter false (centeringStateAt transformX (0, 240)))) =
      relMoves (centeringStateAt transformX (0, 240)).events ++
        [centeringOffsets envCenter (centeringStateAt transformX (0, 240))] ∧
    relMoves (traceOf (dispatch envCenter true (centeringStateAt transformX (0, 240)))) =
      relMoves (centeringStateAt transformX (0, 240)).events ∧
    ((dispatch envCenter false (centeringStateAt transformX (0, 240))).isRight = true ↔
      centeringOffsets envCenter (centeringStateAt transformX (0, 240)) = (0, 0)) ∧
    ((dispatch envCenter true (centeringStateAt transformX (0, 240))).isRight = true ↔
      (|(centeringOffsets envCenter (centeringStateAt transformX (0, 240))).1| < 1/20 ∧
       |(centeringOffsets envCenter (centeringStateAt transformX (0, 240))).2| < 1/20)) :=
  C3_centering_moves_and_termination envCenter (centeringStateAt transformX (0, 240)) rfl

/-- Counterexample to C3 as stated: a concrete endstop iteration whose
rounded corrective offset is `(0.275, 0)` issues no relative move at all
(its move list stays empty) and does not terminate — contradicting the
claim that every iteration of the detect-move loop issues a relative
move. -/
theorem C3_counterexample_endstop_never_moves :
    centeringOffsets envCenter (centeringStateAt transformX (0, 240)) = (275/1000, 0) ∧
    relMoves (traceOf (dispatch envCenter true (centeringStateAt transformX (0, 240)))) = [] ∧
    (dispatch envCenter true (centeringStateAt transformX (0, 240))).isRight = false := by
  have h200 : (centeringStateAt transformX (0, 240)).state = 200 := rfl
  have hoff : centeringOffsets envCenter (centeringStateAt transformX (0, 240)) = (275/1000, 0) := by
    norm_num [centeringOffsets, centeringStateAt, calibInit, tmLen, envCenter, transformX,
      codeOffsets, normalize_coords, applyTT, featureVecOffset, around3, roundHalfEven]
  have habs : ¬(|(11/40 : ℚ)| < 1/20) := by
    rw [abs_of_pos (by norm_num : (0:ℚ) < 11/40)]
    norm_num
  refine ⟨hoff, ?_, ?_⟩
  · rw [dispatch_200_eq envCenter true _ h200]
    simp only [hoff]
    norm_num [traceOf, relMoves, centeringStateAt, calibInit, habs]
  · rw [dispatch_200_eq envCenter true _ h200]
    simp only [hoff]
    norm_num [centeringStateAt, calibInit, habs]

/-- Claim C4 as amended: the first centering detect-move cycle of a run
does perform a 5-sample average — the running `average_location` ends up
as the rounded mean of the first five detections — but that average is
never consulted: a sixth, freshly validated detection is taken after the
averaging, and the corrective offset of the issued move is computed from
that single fresh detection (`env.det 5`) alone. -/
theorem C4_average_computed_but_fresh_detection_used :
    ∀ (env : CalibEnv) (T : Transform) (m : Option ℚ),
    (stateOf (calibIter env false 5 (.inl (calibInit (some T) m)))).averageLocation =
      (around3 ((0 + (env.det 0).1.1 + (env.det 1).1.1 + (env.det 2).1.1 + (env.det 3).1.1
          + (env.det 4).1.1) / 5),
       around3 ((0 + (env.det 0).1.2 + (env.det 1).1.2 + (env.det 2).1.2 + (env.det 3).1.2
          + (env.det 4).1.2) / 5)) ∧
    relMoves (traceOf (calibIter env false 5 (.inl (calibInit (some T) m)))) =
      [codeOffsets T (normalize_coords env.w env.h (env.det 5).1).1
                     (normalize_coords env.w env.h (env.det 5).1).2] := by
  intro env T m
  constructor
  · simp [calibIter, calibStep, dispatch, calibInit, tmLen, stateOf, calibrationCoordinates,
      centeringOffsets]
    split_ifs <;> norm_num
  · simp [calibIter, calibStep, dispatch, calibInit, tmLen, traceOf, relMoves,
      calibrationCoordinates, centeringOffsets]
    split_ifs <;> simp [relMoves]

/-- Counterexample to C4 as stated: with the first five detections at the
frame center `(320, 240)` and the sixth at `(0, 240)`, the 5-sample
average is `(320, 240)` — whose corrective offset would be `(0, 0)` —
yet the cycle issues the move `(0.275, 0)` computed from the sixth
detection, so the average is not the basis of the corrective offset. -/
theorem C4_counterexample_average_not_used :
    (stateOf (calibIter envCenter false 5
        (.inl (calibInit (some transformX) none)))).averageLocation = (320, 240) ∧
    relMoves (traceOf (calibIter envCenter false 5
        (.inl (calibInit (some transformX) none)))) = [(275/1000, 0)] ∧
    codeOffsets transformX (normalize_coords 640 480 (320, 240)).1
        (normalize_coords 640 480 (320, 240)).2 = (0, 0) ∧
    ((275/1000 : ℚ), (0 : ℚ)) ≠ ((0 : ℚ), (0 : ℚ)) := by
  refine ⟨?_, ?_, ?_, by norm_num⟩
  · norm_num [calibIter, calibStep, dispatch, calibInit, tmLen, stateOf, calibrationCoordinates,
      centeringOffsets, envCenter, transformX, codeOffsets, normalize_coords, applyTT,
      featureVecOffset, around3, roundHalfEven]
  · norm_num [calibIter, calibStep, dispatch, calibInit, tmLen, traceOf, relMoves,
      calibrationCoordinates, centeringOffsets, envCenter, transformX, codeOffsets,
      normalize_coords, applyTT, featureVecOffset, around3, roundHalfEven]
    simp
  · norm_num [codeOffsets, normalize_coords, applyTT, featureVecOffset, transformX,
      around3, roundHalfEven]

theorem dispatch_no_idle (env : CalibEnv) (isE : Bool) (s : CalibState)
    (h : Ev.idleStatusObserved ∉ s.events) :
    Ev.idleStatusObserved ∉ traceOf (dispatch env isE s) := by
  unfold dispatch
  split_ifs <;>
    simp_all [traceOf] <;>
    split_ifs <;>
    simp_all

theorem calibStep_no_idle (env : CalibEnv) (isE : Bool) (s : CalibState)
    (h : Ev.idleStatusObserved ∉ s.events) :
    Ev.idleStatusObserved ∉ traceOf (calibStep env isE s) := by
  simp only [calibStep]
  by_cases hq : s.detectCount + 1 ≥ 5
  · simp only [hq, if_true]
    exact dispatch_no_idle env isE _ h
  · simp only [hq, if_false]
    simpa [traceOf] using h

theorem calibIter_no_idle (env : CalibEnv) (isE : Bool) :
    ∀ (fuel : ℕ) (x : CalibState ⊕ CalibDone),
    Ev.idleStatusObserved ∉ traceOf x →
    Ev.idleStatusObserved ∉ traceOf (calibIter env isE fuel x) := by
  intro fuel
  induction fuel with
  | zero =>
    intro x h
    exact h
  | succ n ih =>
    intro x h
    cases x with
    | inr d =>
      simpa [calibIter] using h
    | inl s =>
      simp only [calibIter]
      exact ih (calibStep env isE s) (calibStep_no_idle env isE s h)

/-- Claim C5 as amended: the printer's idle status is observed once per
tool, in the `run` wrapper before `calibrateTool` begins; the
`calibrateTool` loop itself — camera calibration and centering alike —
never observes idle status, for any environment and fuel, so successive
centering moves are issued with only detections between them. -/
theorem C5_idle_only_before_calibration : ∀ (env : CalibEnv) (toolNum polls fuel : ℕ)
    (tm : Option Transform) (m : Option ℚ),
    Ev.idleStatusObserved ∉ traceOf (calibIter env false fuel (.inl (calibInit tm m))) ∧
    perToolTrace env toolNum polls fuel tm m =
      ([.loadTool toolNum, .moveAbsoluteAxis env.cp.1, .moveAbsoluteAxis env.cp.2,
        .moveAbsoluteAxis env.cpz] ++ List.replicate (polls + 1) .idleStatusObserved)
      ++ traceOf (calibIter env false fuel (.inl (calibInit tm m))) := by
  intro env toolNum polls fuel tm m
  refine ⟨calibIter_no_idle env false fuel _ ?_, rfl⟩
  simp [traceOf, calibInit]

/-- Counterexample to C5 as stated: a concrete per-tool run whose
centering loop issues two relative moves with no idle observation
between them (the only idle observation of the whole trace precedes the
first move), so the claimed idle-before-each-move-cycle discipline fails. -/
theorem C5_counterexample_two_moves_no_idle_between :
    idleSeparatesMoves false (perToolTrace envCenter 0 0 6 (some transformX) none) = false ∧
    (relMoves (perToolTrace envCenter 0 0 6 (some transformX) none)).length = 2 := by
  constructor
  · norm_num [perToolTrace, calibIter, calibStep, dispatch, calibInit, tmLen, traceOf,
      calibrationCoordinates, centeringOffsets, envCenter, transformX, codeOffsets,
      normalize_coords, applyTT, featureVecOffset, around3, roundHalfEven,
      idleSeparatesMoves, List.replicate]
  · norm_num [perToolTrace, calibIter, calibStep, dispatch, calibInit, tmLen, traceOf,
      calibrationCoordinates, centeringOffsets, envCenter, transformX, codeOffsets,
      normalize_coords, applyTT, featureVecOffset, around3, roundHalfEven,
      relMoves, List.replicate]
    simp

end TAMV
